import Mathlib

/-!
Shallow embedding of `src/index.ts` of google-sheets-utils.

The TypeScript class `GoogleSheetsUtils` wraps the Google Sheets v4 API.
We embed:
* the auth-options objects and the singleton bookkeeping of the two static
  fields (`instance`, `singletonGoogleAuthOptions`), as explicit state
  passing;
* the shape of the `spreadsheets.get` metadata response
  (`sheets[].properties`), with every field optional exactly as in the
  response types, and the scanning loops of `getFirstSheetId` /
  `getSheetIdByTitle` over it;
* every method's observable behaviour as the list of remote calls it
  issues (plus its returned value, and `Except` for the methods that can
  throw).  Remote calls are data; the remote service itself is an external
  collaborator and is represented by the response values the model takes
  as arguments.

Instances are opaque in the TS code; we model an instance by a `Nat`
identifier supplied as a freshness token, so that "returns the same
instance" is equality of identifiers.
-/

namespace GoogleSheetsUtils

/-- The default auth scope set by `create` when the caller supplies none. -/
def spreadsheetsScope : String :=
  "https://www.googleapis.com/auth/spreadsheets"

/-- A `GoogleAuthOptions` object in canonical form: the `scopes` field
(the only field the code touches) plus the remaining fields as an opaque
association list.  `JSON.stringify` equality of two such objects is
modelled by structural equality of the canonical form (the spec itself
says to treat configs as equal iff their canonical serialized forms
match). -/
structure GoogleAuthOptions where
  scopes : Option (List String)
  rest : List (String × String)
deriving DecidableEq

/-- The in-place mutation `create` performs on an options object:
`googleAuthOptions.scopes = googleAuthOptions.scopes ?? [spreadsheetsScope]`. -/
def mutateOptions (o : GoogleAuthOptions) : GoogleAuthOptions :=
  { o with scopes := some (o.scopes.getD [spreadsheetsScope]) }

/-- `GoogleSheetsUtils.create`.  The TS method defaults the argument to `{}`,
sets the default scope (mutating the caller's object in place when one was
supplied), resolves an auth client and returns a new instance.  The new
instance is modelled by the freshness token `fresh`; the second component
is the value of the caller's own options object after the call (`none`
when no object was passed, since the internal `{}` default is invisible to
the caller). -/
def create (googleAuthOptions : Option GoogleAuthOptions) (fresh : Nat) :
    Nat × Option GoogleAuthOptions :=
  (fresh, googleAuthOptions.map mutateOptions)

/-- The two static fields: `GoogleSheetsUtils.instance` (by identifier;
`instance` is a Lean keyword, hence `inst`) and
`GoogleSheetsUtils.singletonGoogleAuthOptions`. -/
structure SingletonState where
  inst : Option Nat
  singletonGoogleAuthOptions : Option GoogleAuthOptions
deriving DecidableEq

/-- Both static fields start unset. -/
def initialState : SingletonState :=
  { inst := none, singletonGoogleAuthOptions := none }

/-- The error `getInstance` throws on an auth-config conflict
(`ConfigConflictError` in the spec's terms). -/
inductive GetInstanceError where
  | configConflict (message : String)
deriving DecidableEq

/-- The message of the conflict error thrown by `getInstance`. -/
def configConflictMessage : String :=
  "Singleton instance has been already created with authOptions. " ++
    "Please use GoogleSheetsUtils.create() to create another instance with new different auth options."

/-- `GoogleSheetsUtils.getInstance`.  If no instance exists it creates one
via `create` and records the caller's options object (the very object
`create` just mutated, or `undefined` = `none`).  Otherwise, a supplied
options object (any object is truthy in JS, `undefined` is falsy) is
compared against the recorded one by `JSON.stringify`: structural equality
of the canonical form; `JSON.stringify undefined` differs from the
serialization of every object, so a supplied config always conflicts with
a recorded `none`.  Result: the instance identifier and the caller's
options object after the call, plus the updated static state. -/
def getInstance (st : SingletonState) (fresh : Nat)
    (googleAuthOptions : Option GoogleAuthOptions) :
    Except GetInstanceError (Nat × Option GoogleAuthOptions) × SingletonState :=
  match st.inst with
  | none =>
    let created := create googleAuthOptions fresh
    (Except.ok created,
      { inst := some created.1, singletonGoogleAuthOptions := created.2 })
  | some i =>
    match googleAuthOptions with
    | none => (Except.ok (i, none), st)
    | some o =>
      if some o = st.singletonGoogleAuthOptions then
        (Except.ok (i, some o), st)
      else
        (Except.error (GetInstanceError.configConflict configConflictMessage), st)

/-- `sheets[].properties` of a `spreadsheets.get` response; every field is
optional, as in the response types. -/
structure SheetProperties where
  index : Option Int
  sheetId : Option Int
  title : Option String
deriving DecidableEq

/-- One entry of the `sheets` list of a metadata response. -/
structure Sheet where
  properties : Option SheetProperties
deriving DecidableEq

/-- The loop of `getFirstSheetId`: return `sheet.properties?.sheetId ?? null`
for the first sheet with `sheet.properties?.index === 0`, else `null`. -/
def findFirstSheetId : List Sheet → Option Int
  | [] => none
  | s :: rest =>
    if s.properties.bind SheetProperties.index = some 0 then
      s.properties.bind SheetProperties.sheetId
    else
      findFirstSheetId rest

/-- `GoogleSheetsUtils.getFirstSheetId`, as a function of the metadata
response: `existingSheets` is `(await api.spreadsheets.get ...)?.data?.sheets`
(the remote fetch itself is recorded by `metadataGetCall` below). -/
def getFirstSheetId (existingSheets : Option (List Sheet)) : Option Int :=
  match existingSheets with
  | some sheets => if sheets.length > 0 then findFirstSheetId sheets else none
  | none => none

/-- The loop of `getSheetIdByTitle`: return `sheet.properties?.sheetId ?? null`
for the first sheet with `sheet.properties?.title === title`, else `null`. -/
def findSheetIdByTitle (title : String) : List Sheet → Option Int
  | [] => none
  | s :: rest =>
    if s.properties.bind SheetProperties.title = some title then
      s.properties.bind SheetProperties.sheetId
    else
      findSheetIdByTitle title rest

/-- `GoogleSheetsUtils.getSheetIdByTitle`, as a function of the metadata
response (same shape as `getFirstSheetId`). -/
def getSheetIdByTitle (existingSheets : Option (List Sheet)) (title : String) :
    Option Int :=
  match existingSheets with
  | some sheets =>
    if sheets.length > 0 then findSheetIdByTitle title sheets else none
  | none => none

/-- The loop guard of `getSheetIdByTitle` on one sheet:
`sheet.properties?.title === title` (exact, case-sensitive; `undefined`
never equals a string). -/
def sheetMatchesTitle (title : String) (s : Sheet) : Bool :=
  decide (s.properties.bind SheetProperties.title = some title)

/-- Service contract for the metadata of a real file: a listed sheet has
`properties` with `sheetId` and `title` present and `index` equal to its
position in the returned list. -/
def wellFormedSheet (k : Nat) (s : Sheet) : Bool :=
  match s.properties with
  | some p =>
    decide (p.index = some (Int.ofNat k)) && p.sheetId.isSome && p.title.isSome
  | none => false

/-- `wellFormedSheet` for every sheet of a list, positions counted from `k`. -/
def wellFormedFrom (k : Nat) : List Sheet → Bool
  | [] => true
  | s :: rest => wellFormedSheet k s && wellFormedFrom (k + 1) rest

/-- Well-formed metadata response for a real file: positions from 0. -/
def wellFormedSheets (sheets : List Sheet) : Bool :=
  wellFormedFrom 0 sheets

/-- One entry of the `requests` list of a `spreadsheets.batchUpdate` body,
carrying exactly the fields the TS code fills in. -/
inductive BatchRequest where
  | updateSheetProperties (sheetId : Int) (title : String)
  | deleteSheet (sheetId : Int)
  | updateCells (sheetId : Option Int) (startRowIndex startColumnIndex : Int)
      (endRowIndex endColumnIndex : Option Int) (fields : String)
  | updateDimensionProperties (sheetId : Option Int) (dimension : String)
      (startIndex : Int) (pixelSize : Int) (fields : String)
deriving DecidableEq

/-- A remote call issued to the Google Sheets service.  `α` is the type of
cell values (`unknown` in TS); the methods are polymorphic in it. -/
inductive RemoteCall (α : Type) where
  | valuesGet (spreadsheetId : String) (range : String)
  | valuesUpdate (spreadsheetId : String) (range : String)
      (valueInputOption : String) (values : List (List α))
  | spreadsheetsGet (spreadsheetId : String) (fields : String)
  | copyTo (spreadsheetId : String) (sheetId : Int)
      (destinationSpreadsheetId : String)
  | batchUpdate (spreadsheetId : String) (requests : List BatchRequest)
deriving DecidableEq

variable {α : Type}

/-- `getRowsFromSheet` (default `range` is `"A1"`): issues one
`values.get` call and returns `response.data.values ?? []`.  `respValues`
is that response field (`none` when the range is empty and the field is
absent or null).  The result type is a total `List`: no null/undefined
result exists. -/
def getRowsFromSheet (fileId range : String)
    (respValues : Option (List (List α))) :
    List (List α) × List (RemoteCall α) :=
  (respValues.getD [], [RemoteCall.valuesGet fileId range])

/-- `saveRowsToSheet` (default `range` is `"Sheet1!A1"`): issues one
`values.update` call with `valueInputOption: USER_ENTERED` and
`requestBody.values = rows`. -/
def saveRowsToSheet (fileId : String) (rows : List (List α)) (range : String) :
    List (RemoteCall α) :=
  [RemoteCall.valuesUpdate fileId range "USER_ENTERED" rows]

/-- `saveRowToSheet`: delegates to `saveRowsToSheet` with `[values]`. -/
def saveRowToSheet (fileId : String) (values : List α) (range : String) :
    List (RemoteCall α) :=
  saveRowsToSheet fileId [values] range

/-- The metadata fetch issued inside `getFirstSheetId` and
`getSheetIdByTitle`: `spreadsheets.get` with `fields: sheets.properties`. -/
def metadataGetCall (fileId : String) : RemoteCall α :=
  RemoteCall.spreadsheetsGet fileId "sheets.properties"

/-- `copySheet`: one `spreadsheets.sheets.copyTo` call. -/
def copySheet (fileId : String) (sheetId : Int) (destinationFileId : String) :
    List (RemoteCall α) :=
  [RemoteCall.copyTo fileId sheetId destinationFileId]

/-- Errors thrown by the byTitle methods (`SheetNotFoundError` in the
spec's terms; the TS code throws `Error` with this message). -/
inductive SheetsError where
  | sheetNotFound (message : String)
deriving DecidableEq

/-- The message of the error thrown when a title does not resolve. -/
def sheetNotFoundMessage (title : String) : String :=
  "Sheet '" ++ title ++ "' not found."

/-- `copySheetByTitle`: resolves the title (issuing the metadata fetch),
throws when the lookup returns null, else delegates to `copySheet`.  On
success the list holds all remote calls in order. -/
def copySheetByTitle (existingSheets : Option (List Sheet))
    (fileId sheetTitle destinationFileId : String) :
    Except SheetsError (List (RemoteCall α)) :=
  match getSheetIdByTitle existingSheets sheetTitle with
  | none =>
    Except.error (SheetsError.sheetNotFound (sheetNotFoundMessage sheetTitle))
  | some sheetId =>
    Except.ok (metadataGetCall fileId :: copySheet fileId sheetId destinationFileId)

/-- `renameSheetById`: one `batchUpdate` call with a single
`updateSheetProperties` request carrying the id and the new title. -/
def renameSheetById (fileId : String) (sheetId : Int) (newTitle : String) :
    List (RemoteCall α) :=
  [RemoteCall.batchUpdate fileId
    [BatchRequest.updateSheetProperties sheetId newTitle]]

/-- `renameSheetByTitle`: resolve, throw on null, delegate. -/
def renameSheetByTitle (existingSheets : Option (List Sheet))
    (fileId currentTitle newTitle : String) :
    Except SheetsError (List (RemoteCall α)) :=
  match getSheetIdByTitle existingSheets currentTitle with
  | none =>
    Except.error (SheetsError.sheetNotFound (sheetNotFoundMessage currentTitle))
  | some sheetId =>
    Except.ok (metadataGetCall fileId :: renameSheetById fileId sheetId newTitle)

/-- `deleteSheetById`: one `batchUpdate` call with a single `deleteSheet`
request. -/
def deleteSheetById (fileId : String) (sheetId : Int) : List (RemoteCall α) :=
  [RemoteCall.batchUpdate fileId [BatchRequest.deleteSheet sheetId]]

/-- `deleteSheetByTitle`: resolve, throw on null, delegate. -/
def deleteSheetByTitle (existingSheets : Option (List Sheet))
    (fileId title : String) :
    Except SheetsError (List (RemoteCall α)) :=
  match getSheetIdByTitle existingSheets title with
  | none =>
    Except.error (SheetsError.sheetNotFound (sheetNotFoundMessage title))
  | some sheetId =>
    Except.ok (metadataGetCall fileId :: deleteSheetById fileId sheetId)

/-- `clearFirstSheet` (defaults `startRowIndex = 1`, `startColumnIndex = 1`):
fetches metadata to resolve the first sheet id, then issues one
`batchUpdate` with a single `updateCells` request whose grid range has the
resolved id (possibly null), the given start indices and no end indices,
and whose field mask is exactly `userEnteredValue`.  The TS body has no
throw path: the function is total. -/
def clearFirstSheet (existingSheets : Option (List Sheet)) (fileId : String)
    (startRowIndex startColumnIndex : Int) : List (RemoteCall α) :=
  [metadataGetCall fileId,
   RemoteCall.batchUpdate fileId
     [BatchRequest.updateCells (getFirstSheetId existingSheets)
       startRowIndex startColumnIndex none none "userEnteredValue"]]

/-- `setRowsHeight` (default `startRowIndex = 1`): fetches metadata to
resolve the first sheet id, then issues one `batchUpdate` with a single
`updateDimensionProperties` request (`dimension: ROWS`, no end index,
`pixelSize = height`, field mask `pixelSize`).  No throw path: total. -/
def setRowsHeight (existingSheets : Option (List Sheet)) (fileId : String)
    (height : Int) (startRowIndex : Int) : List (RemoteCall α) :=
  [metadataGetCall fileId,
   RemoteCall.batchUpdate fileId
     [BatchRequest.updateDimensionProperties (getFirstSheetId existingSheets)
       "ROWS" startRowIndex height "pixelSize"]]

/-- A concrete auth config with `scopes` already set (for witnesses). -/
def cfgA : GoogleAuthOptions := { scopes := some ["s1"], rest := [] }

/-- A concrete auth config without `scopes` (for witnesses). -/
def cfgB : GoogleAuthOptions :=
  { scopes := none, rest := [("keyFile", "key.json")] }

/-- A concrete first sheet (index 0, id 111) for witnesses. -/
def sheetA : Sheet :=
  { properties := some { index := some 0, sheetId := some 111, title := some "Sheet1" } }

/-- A concrete second sheet (index 1, id 222) for witnesses. -/
def sheetB : Sheet :=
  { properties := some { index := some 1, sheetId := some 222, title := some "Data" } }

/-- A concrete two-sheet metadata response for witnesses. -/
def exSheets : List Sheet := [sheetA, sheetB]

/-- Claim C1: a second `getInstance` with no config returns the existing
instance and leaves the static state unchanged (so two calls from an empty
state return the same instance, part one giving the state after the
first); a second call with a config that is `JSON.stringify`-equal to the
recorded one returns the existing instance with state unchanged; a second
call with a structurally different config fails with the config-conflict
error, leaving the existing instance and the recorded config unchanged. -/
theorem getInstance_spec (st : SingletonState) (fresh : Nat)
    (o : GoogleAuthOptions) (i : Nat) :
    (st.inst = none →
      getInstance st fresh none =
        (Except.ok (fresh, none),
          { inst := some fresh, singletonGoogleAuthOptions := none })) ∧
    (st.inst = some i →
      getInstance st fresh none = (Except.ok (i, none), st)) ∧
    (st.inst = some i → some o = st.singletonGoogleAuthOptions →
      getInstance st fresh (some o) = (Except.ok (i, some o), st)) ∧
    (st.inst = some i → some o ≠ st.singletonGoogleAuthOptions →
      getInstance st fresh (some o) =
        (Except.error (GetInstanceError.configConflict configConflictMessage),
          st)) := by
  refine ⟨fun h => ?_, fun h => ?_, fun h he => ?_, fun h hne => ?_⟩
  · simp [getInstance, h, create]
  · simp [getInstance, h]
  · simp [getInstance, h, he]
  · simp [getInstance, h, hne]

/-- Witness for C1 at concrete inputs: with an existing instance `5` and
recorded config `cfgA`, a no-config call and a `cfgA` call return instance
`5` leaving state unchanged, and a `cfgB` call fails with the conflict
error leaving state unchanged. -/
theorem getInstance_spec_witness :
    getInstance ⟨some 5, some cfgA⟩ 9 none =
      (Except.ok (5, none), ⟨some 5, some cfgA⟩) ∧
    getInstance ⟨some 5, some cfgA⟩ 9 (some cfgA) =
      (Except.ok (5, some cfgA), ⟨some 5, some cfgA⟩) ∧
    getInstance ⟨some 5, some cfgA⟩ 9 (some cfgB) =
      (Except.error (GetInstanceError.configConflict configConflictMessage),
        ⟨some 5, some cfgA⟩) := by
  refine ⟨?_, ?_, ?_⟩
  · exact (getInstance_spec ⟨some 5, some cfgA⟩ 9 cfgA 5).2.1 rfl
  · exact (getInstance_spec ⟨some 5, some cfgA⟩ 9 cfgA 5).2.2.1 rfl rfl
  · exact (getInstance_spec ⟨some 5, some cfgA⟩ 9 cfgB 5).2.2.2 rfl (by decide)

/-- Claim C9: `create` mutates the caller's options object: when the
supplied config has no `scopes`, after the call the caller's object has
`scopes` set to the default spreadsheet scope, and `getInstance` (from the
empty state) records exactly that mutated object as the singleton config;
a config whose `scopes` is already set is left unchanged. -/
theorem create_mutates_caller_options (o : GoogleAuthOptions) (fresh : Nat) :
    (o.scopes = none →
      (create (some o) fresh).2 =
        some { o with scopes := some [spreadsheetsScope] } ∧
      (getInstance initialState fresh (some o)).2.singletonGoogleAuthOptions =
        some { o with scopes := some [spreadsheetsScope] }) ∧
    (∀ s, o.scopes = some s → (create (some o) fresh).2 = some o) := by
  constructor
  · intro h
    constructor
    · simp [create, mutateOptions, h]
    · simp [getInstance, initialState, create, mutateOptions, h]
  · intro s h
    obtain ⟨sc, rest⟩ := o
    simp only at h
    subst h
    simp [create, mutateOptions]

/-- Witness for C9 at concrete inputs: `cfgB` (no scopes) comes back with
the default scope filled in; `cfgA` (scopes set) comes back unchanged. -/
theorem create_mutates_caller_options_witness :
    (create (some cfgB) 3).2 =
      some { cfgB with scopes := some [spreadsheetsScope] } ∧
    (create (some cfgA) 3).2 = some cfgA := by
  constructor
  · exact ((create_mutates_caller_options cfgB 3).1 rfl).1
  · exact (create_mutates_caller_options cfgA 3).2 ["s1"] rfl

/-- In a list well-formed from position `k`, every sheet's `index` is at
least `k`. -/
theorem wellFormedFrom_index_ge {k : Nat} {l : List Sheet}
    (h : wellFormedFrom k l = true) :
    ∀ s ∈ l, ∀ p, s.properties = some p → ∀ j : Int, p.index = some j →
      Int.ofNat k ≤ j := by
  induction l generalizing k with
  | nil =>
    intro s hs
    cases hs
  | cons a rest ih =>
    rw [wellFormedFrom, Bool.and_eq_true] at h
    intro s hs p hp j hj
    rcases List.mem_cons.mp hs with hsa | hsr
    · subst hsa
      have hw := h.1
      rw [wellFormedSheet, hp] at hw
      simp only [Bool.and_eq_true, decide_eq_true_eq] at hw
      rw [hw.1.1] at hj
      cases hj
      exact le_refl _
    · have := ih h.2 s hsr p hp j hj
      have hk : (Int.ofNat k : Int) ≤ Int.ofNat (k + 1) := by
        simp [Int.ofNat_le]
      exact le_trans hk this


/-- In a well-formed list every sheet has `properties` with `sheetId` and
`title` present. -/
theorem wellFormedFrom_fields {k : Nat} {l : List Sheet}
    (h : wellFormedFrom k l = true) :
    ∀ s ∈ l, ∃ p, s.properties = some p ∧
      p.sheetId.isSome = true ∧ p.title.isSome = true := by
  induction l generalizing k with
  | nil =>
    intro s hs
    cases hs
  | cons a rest ih =>
    rw [wellFormedFrom, Bool.and_eq_true] at h
    intro s hs
    rcases List.mem_cons.mp hs with hsa | hsr
    · subst hsa
      have hw := h.1
      cases hp : s.properties with
      | none =>
        rw [wellFormedSheet, hp] at hw
        cases hw
      | some p =>
        rw [wellFormedSheet, hp] at hw
        simp only [Bool.and_eq_true, decide_eq_true_eq] at hw
        exact ⟨p, rfl, hw.1.2, hw.2⟩
    · exact ih h.2 s hsr

/-- Claim C2: for a well-formed metadata response, `getFirstSheetId`
returns null iff the sheet list is empty, and otherwise returns the id of
the (unique) sheet whose positional `index` is 0. -/
theorem getFirstSheetId_spec (sheets : List Sheet)
    (hwf : wellFormedSheets sheets = true) :
    (getFirstSheetId (some sheets) = none ↔ sheets = []) ∧
    (∀ s ∈ sheets, ∀ p, s.properties = some p → p.index = some 0 →
      getFirstSheetId (some sheets) = p.sheetId) := by
  cases sheets with
  | nil =>
    constructor
    · simp [getFirstSheetId]
    · intro s hs
      cases hs
  | cons a rest =>
    rw [wellFormedSheets, wellFormedFrom, Bool.and_eq_true] at hwf
    cases hpa : a.properties with
    | none =>
      exfalso
      have hw := hwf.1
      rw [wellFormedSheet, hpa] at hw
      cases hw
    | some p0 =>
      have hw := hwf.1
      rw [wellFormedSheet, hpa] at hw
      simp only [Bool.and_eq_true, decide_eq_true_eq] at hw
      have hidx0 : p0.index = some 0 := hw.1.1
      have hval : getFirstSheetId (some (a :: rest)) = p0.sheetId := by
        simp only [getFirstSheetId, List.length_cons, Nat.succ_pos, if_pos]
        rw [findFirstSheetId, hpa]
        simp [hidx0]
      constructor
      · rw [hval]
        constructor
        · intro hnone
          exfalso
          rw [hnone] at hw
          exact (by cases hw.1.2 : False)
        · intro hc
          cases hc
      · intro s hs p hp hpi
        rcases List.mem_cons.mp hs with hsa | hsr
        · subst hsa
          rw [hpa] at hp
          cases hp
          exact hval
        · exfalso
          have := wellFormedFrom_index_ge hwf.2 s hsr p hp 0 hpi
          exact absurd this (by decide)

/-- Witness for C2 at a concrete response: `exSheets` is well-formed and
the first sheet's id `111` is returned. -/
theorem getFirstSheetId_spec_witness :
    wellFormedSheets exSheets = true ∧
    getFirstSheetId (some exSheets) = some 111 := by
  constructor
  · decide
  · exact (getFirstSheetId_spec exSheets (by decide)).2 sheetA (by decide)
      { index := some 0, sheetId := some 111, title := some "Sheet1" } rfl rfl

/-- The scanning loop of `getSheetIdByTitle` is `List.find?` on the title
guard followed by the `sheetId ?? null` projection: the first sheet in
service order whose title matches wins. -/
theorem findSheetIdByTitle_eq_find (title : String) (l : List Sheet) :
    findSheetIdByTitle title l =
      (l.find? (sheetMatchesTitle title)).bind
        (fun s => s.properties.bind SheetProperties.sheetId) := by
  induction l with
  | nil =>
    simp [findSheetIdByTitle]
  | cons a rest ih =>
    rw [findSheetIdByTitle]
    by_cases hc : a.properties.bind SheetProperties.title = some title
    · rw [if_pos hc, List.find?_cons_of_pos _ (by simp [sheetMatchesTitle, hc])]
      rfl
    · rw [if_neg hc, List.find?_cons_of_neg _ (by simp [sheetMatchesTitle, hc])]
      exact ih

/-- Claim C3: for a well-formed metadata response, `getSheetIdByTitle`
returns null iff no sheet's title equals the query exactly, and the result
is the id of the first sheet (in service order) whose title matches, so on
duplicate titles the first one wins. -/
theorem getSheetIdByTitle_spec (sheets : List Sheet) (title : String)
    (hwf : wellFormedSheets sheets = true) :
    (getSheetIdByTitle (some sheets) title = none ↔
      ∀ s ∈ sheets, sheetMatchesTitle title s = false) ∧
    getSheetIdByTitle (some sheets) title =
      (sheets.find? (sheetMatchesTitle title)).bind
        (fun s => s.properties.bind SheetProperties.sheetId) := by
  have heq : getSheetIdByTitle (some sheets) title =
      findSheetIdByTitle title sheets := by
    cases sheets with
    | nil => simp [getSheetIdByTitle, findSheetIdByTitle]
    | cons a rest => simp [getSheetIdByTitle]
  refine ⟨?_, heq.trans (findSheetIdByTitle_eq_find title sheets)⟩
  rw [heq, findSheetIdByTitle_eq_find]
  constructor
  · intro h s hs
    cases hf : sheets.find? (sheetMatchesTitle title) with
    | none =>
      have := List.find?_eq_none.mp hf s hs
      simpa using this
    | some s' =>
      exfalso
      have hmem := List.mem_of_find?_eq_some hf
      obtain ⟨p', hp', hsid, _⟩ := wellFormedFrom_fields hwf s' hmem
      rw [hf] at h
      have h2 : s'.properties.bind SheetProperties.sheetId = none := h
      rw [hp'] at h2
      have h3 : p'.sheetId = none := h2
      rw [h3] at hsid
      cases hsid
  · intro h
    rw [List.find?_eq_none.mpr (fun a ha => by simp [h a ha])]
    rfl

/-- Witness for C3 at a concrete response: `"Data"` resolves to id `222`
and `"Missing"` (no exact match) resolves to null. -/
theorem getSheetIdByTitle_spec_witness :
    getSheetIdByTitle (some exSheets) "Data" = some 222 ∧
    getSheetIdByTitle (some exSheets) "Missing" = none := by
  constructor
  · rw [(getSheetIdByTitle_spec exSheets "Data" (by decide)).2]
    decide
  · exact (getSheetIdByTitle_spec exSheets "Missing" (by decide)).1.mpr
      (by decide)

/-- Claim C4: each byTitle method fails with the sheet-not-found error
(whose message carries the offending title) exactly when the title lookup
returns null, and otherwise issues the metadata fetch followed by exactly
the remote call of the corresponding byId method at the resolved id. -/
theorem byTitle_delegation {α : Type} (existingSheets : Option (List Sheet))
    (fileId title destinationFileId newTitle : String) :
    (getSheetIdByTitle existingSheets title = none →
      copySheetByTitle (α := α) existingSheets fileId title destinationFileId =
        Except.error (SheetsError.sheetNotFound (sheetNotFoundMessage title)) ∧
      renameSheetByTitle (α := α) existingSheets fileId title newTitle =
        Except.error (SheetsError.sheetNotFound (sheetNotFoundMessage title)) ∧
      deleteSheetByTitle (α := α) existingSheets fileId title =
        Except.error (SheetsError.sheetNotFound (sheetNotFoundMessage title))) ∧
    (∀ sheetId, getSheetIdByTitle existingSheets title = some sheetId →
      copySheetByTitle (α := α) existingSheets fileId title destinationFileId =
        Except.ok (metadataGetCall fileId ::
          copySheet fileId sheetId destinationFileId) ∧
      renameSheetByTitle (α := α) existingSheets fileId title newTitle =
        Except.ok (metadataGetCall fileId ::
          renameSheetById fileId sheetId newTitle) ∧
      deleteSheetByTitle (α := α) existingSheets fileId title =
        Except.ok (metadataGetCall fileId :: deleteSheetById fileId sheetId)) ∧
    sheetNotFoundMessage title = "Sheet '" ++ title ++ "' not found." := by
  refine ⟨fun h => ?_, fun sheetId h => ?_, rfl⟩
  · exact ⟨by rw [copySheetByTitle, h], by rw [renameSheetByTitle, h],
      by rw [deleteSheetByTitle, h]⟩
  · exact ⟨by rw [copySheetByTitle, h], by rw [renameSheetByTitle, h],
      by rw [deleteSheetByTitle, h]⟩

/-- Witness for C4 at a concrete response: a resolving title produces the
metadata fetch plus the byId call; a missing title produces the error with
the title in the message. -/
theorem byTitle_delegation_witness :
    copySheetByTitle (α := String) (some exSheets) "file" "Data" "dest" =
      Except.ok [metadataGetCall "file", RemoteCall.copyTo "file" 222 "dest"] ∧
    deleteSheetByTitle (α := String) (some exSheets) "file" "Missing" =
      Except.error
        (SheetsError.sheetNotFound (sheetNotFoundMessage "Missing")) := by
  constructor
  · exact ((byTitle_delegation (α := String) (some exSheets) "file" "Data"
      "dest" "New").2.1 222 (by decide)).1
  · exact ((byTitle_delegation (α := String) (some exSheets) "file" "Missing"
      "dest" "New").1 (by decide)).2.2

/-- Claim C5: when the remote response carries no values (absent or empty),
`getRowsFromSheet` returns the empty list — a value of a total list type,
never null or undefined and not an error — and otherwise returns the
response values unchanged. -/
theorem getRowsFromSheet_empty {α : Type} (fileId range : String) :
    (getRowsFromSheet (α := α) fileId range none).1 = [] ∧
    (getRowsFromSheet (α := α) fileId range (some [])).1 = [] ∧
    ∀ vs : List (List α), (getRowsFromSheet fileId range (some vs)).1 = vs :=
  ⟨rfl, rfl, fun _ => rfl⟩

/-- Claim C6: `saveRowToSheet` is observably equivalent to
`saveRowsToSheet` on the singleton rows list: the same remote call list
(and both return void). -/
theorem saveRowToSheet_delegates {α : Type} (fileId : String)
    (values : List α) (range : String) :
    saveRowToSheet fileId values range = saveRowsToSheet fileId [values] range ∧
    saveRowToSheet fileId values range =
      [RemoteCall.valuesUpdate fileId range "USER_ENTERED" [values]] :=
  ⟨rfl, rfl⟩

/-- Claim C7: `saveRowsToSheet` issues exactly one remote value-update
request, with the given rows as `values`, the given range, and
`valueInputOption` `USER_ENTERED`. -/
theorem saveRowsToSheet_request {α : Type} (fileId : String)
    (rows : List (List α)) (range : String) :
    saveRowsToSheet fileId rows range =
      [RemoteCall.valuesUpdate fileId range "USER_ENTERED" rows] ∧
    (saveRowsToSheet fileId rows range).length = 1 :=
  ⟨rfl, rfl⟩

/-- Claim C8: `clearFirstSheet` resolves the first sheet's id and then
issues a single batch update holding a single `updateCells` request whose
grid range starts at the given indices with no end indices, targets the
resolved sheet id, and whose field mask is exactly `userEnteredValue`, so
only entered values are written (cleared); all other cell fields are
outside the mask. -/
theorem clearFirstSheet_request {α : Type}
    (existingSheets : Option (List Sheet)) (fileId : String)
    (startRowIndex startColumnIndex : Int) :
    clearFirstSheet (α := α) existingSheets fileId startRowIndex
        startColumnIndex =
      [metadataGetCall fileId,
       RemoteCall.batchUpdate fileId
         [BatchRequest.updateCells (getFirstSheetId existingSheets)
           startRowIndex startColumnIndex none none "userEnteredValue"]] :=
  rfl

/-- Claim C10: when first-sheet resolution yields null, `clearFirstSheet`
and `setRowsHeight` do not fail with a sheet-not-found error (their remote
call lists are total values, no error among them): each still issues its
batch update with a null sheet id in the range, deferring any failure to
the remote service. -/
theorem firstSheet_null_id_deferred {α : Type}
    (existingSheets : Option (List Sheet)) (fileId : String)
    (startRowIndex startColumnIndex height : Int)
    (h : getFirstSheetId existingSheets = none) :
    clearFirstSheet (α := α) existingSheets fileId startRowIndex
        startColumnIndex =
      [metadataGetCall fileId,
       RemoteCall.batchUpdate fileId
         [BatchRequest.updateCells none startRowIndex startColumnIndex
           none none "userEnteredValue"]] ∧
    setRowsHeight (α := α) existingSheets fileId height startRowIndex =
      [metadataGetCall fileId,
       RemoteCall.batchUpdate fileId
         [BatchRequest.updateDimensionProperties none "ROWS" startRowIndex
           height "pixelSize"]] := by
  constructor
  · rw [clearFirstSheet, h]
  · rw [setRowsHeight, h]

/-- Witness for C10 at a concrete empty-file response: both methods issue
their batch update with a null sheet id. -/
theorem firstSheet_null_id_deferred_witness :
    clearFirstSheet (α := String) (some []) "file" 1 1 =
      [metadataGetCall "file",
       RemoteCall.batchUpdate "file"
         [BatchRequest.updateCells none 1 1 none none "userEnteredValue"]] ∧
    setRowsHeight (α := String) (some []) "file" 21 1 =
      [metadataGetCall "file",
       RemoteCall.batchUpdate "file"
         [BatchRequest.updateDimensionProperties none "ROWS" 1 21
           "pixelSize"]] :=
  firstSheet_null_id_deferred (α := String) (some []) "file" 1 1 21 rfl

end GoogleSheetsUtils
